import Mathlib

/-!
Shallow embedding of the client-side service façades of `process_lib`
(`src/kv.rs`, `src/graphdb.rs`, `src/python.rs`).

Serialization is modelled at the JSON *value* level: `serde_json::to_vec` /
`serde_json::from_slice` are the standard (injective) JSON text codec composed
with the structural serde codec of each type, so a primary body or a typed
blob is represented by the `Json` value it denotes.  `serde`'s conventions for
the derived codecs are reproduced exactly: a struct becomes an object with its
fields in declaration order, a unit enum variant becomes its name as a string,
a struct enum variant becomes a one-field object `{"Variant": {fields}}`,
`Option` becomes `null` / the payload, `Vec<u8>` an array of numbers, and a
tuple an array.  Decoders accept exactly the canonical encodings (serde is
additionally lenient about object field order, which no theorem here relies
on); any other value decodes to `none`, which models a `serde_json` decode
failure.
-/

/-- JSON values.  Numbers are restricted to `Nat` because every number the
embedded protocol carries is a `u64` or a byte. -/
inductive Json where
  | null
  | bool (b : Bool)
  | num (n : Nat)
  | str (s : String)
  | arr (xs : List Json)
  | obj (fields : List (String × Json))
deriving Repr

/-- Modelled from the spec: `PackageId` (the request's `ownerId`, "a
package/tenant identifier") is declared in the crate root, which is not among
the provided sources; the spec treats it as an opaque identifier, so it is
modelled as a wrapped string with the evident self-describing codec. -/
structure PackageId where
  ident : String
deriving Repr, DecidableEq

/-- Modelled from the spec: the transport-layer failure returned by the
message-passing substrate ("send failure, timeout"); its declaration lives in
the crate root, outside the provided sources. -/
inductive SendError where
  | offline (msg : String)
  | timeout (msg : String)
deriving Repr, DecidableEq

/-- Modelled from the spec: the substrate's `Message` as the façades consume
it — only the body of a `Response` (or of an unexpected incoming `Request`)
is ever read (`Message::Response { body, .. }`). -/
inductive Message where
  | response (body : Json)
  | request (body : Json)
deriving Repr

/-- The logical service address built by `.target(("our", name, publisher, node))`. -/
def Address := String × String × String × String
deriving instance Repr for Address

/-- An outgoing blob: `payload_bytes(value)` attaches raw bytes, while
`blob_bytes(serde_json::to_vec(&x)?)` attaches the JSON serialization of a
typed value (represented at the value level). -/
inductive OutBlob where
  | raw (bytes : List Nat)
  | json (v : Json)
deriving Repr

/-- Everything a façade operation hands to the substrate:
`Request::new().target(..).body(..)[.blob_bytes(..)].send_and_await_response(t)`. -/
structure BuiltRequest where
  target : Address
  body : Json
  blob : Option OutBlob
  timeoutSeconds : Nat

/-- The payload returned by `get_payload()` in `kv.rs`: raw bytes. -/
structure Payload where
  bytes : List Nat
deriving Repr, DecidableEq

/- ===== kv.rs data model ===== -/

inductive KvAction where
  | new
  | set (key : List Nat) (tx_id : Option Nat)
  | delete (key : List Nat) (tx_id : Option Nat)
  | get (key : List Nat)
  | beginTx
  | commit (tx_id : Nat)
  | backup
deriving Repr, DecidableEq

structure KvRequest where
  package_id : PackageId
  db : String
  action : KvAction
deriving Repr, DecidableEq

inductive KvError where
  | noDb
  | dbAlreadyExists
  | keyNotFound
  | noTx
  | noCap (error : String)
  | rocksDBError (action : String) (error : String)
  | inputError (error : String)
  | ioError (error : String)
deriving Repr, DecidableEq

inductive KvResponse where
  | ok
  | beginTx (tx_id : Nat)
  | get (key : List Nat)
  | err (error : KvError)
deriving Repr, DecidableEq

/- ===== graphdb.rs data model ===== -/

inductive DefineResourceType where
  | Namespace (name : String)
  | Database (name : String)
  | Table (name : String)
deriving Repr, DecidableEq

/-- `GraphDbRequestParams = Vec<(String, serde_json::Value)>`. -/
def GraphDbRequestParams := List (String × Json)

inductive GraphDbAction where
  | open
  | removeDb
  | define (resource : DefineResourceType)
  | statement (statement : String) (params : Option GraphDbRequestParams)
  | read (statement : String)
  | backup

structure GraphDbRequest where
  package_id : PackageId
  db : String
  action : GraphDbAction

inductive GraphDbError where
  | noDb
  | keyNotFound
  | noTx
  | noCap (error : String)
  | surrealDBError (action : String) (error : String)
  | inputError (error : String)
  | ioError (error : String)
deriving Repr, DecidableEq

inductive GraphDbResponse where
  | ok
  | data
  | err (error : GraphDbError)
deriving Repr, DecidableEq

/- ===== python.rs data model ===== -/

inductive PythonAction where
  | runScript (script : String) (func : String) (args : List String)
deriving Repr, DecidableEq

structure PythonRequest where
  package_id : PackageId
  action : PythonAction
deriving Repr, DecidableEq

inductive PythonError where
  | noCap (error : String)
  | inputError (error : String)
  | ioError (error : String)
deriving Repr, DecidableEq

inductive PythonResponse where
  | result (data : List Nat)
  | err (error : PythonError)
deriving Repr, DecidableEq

/- ===== Encoders (the derived `Serialize` impls, at the JSON value level) ===== -/

def encodeBytes (bs : List Nat) : Json := .arr (bs.map .num)

def encodeOptNat : Option Nat → Json
  | none => .null
  | some n => .num n

def encodeStrings (ss : List String) : Json := .arr (ss.map .str)

def encodePackageId (p : PackageId) : Json := .str p.ident

def encodeKvAction : KvAction → Json
  | .new => .str "New"
  | .set key tx_id =>
      .obj [("Set", .obj [("key", encodeBytes key), ("tx_id", encodeOptNat tx_id)])]
  | .delete key tx_id =>
      .obj [("Delete", .obj [("key", encodeBytes key), ("tx_id", encodeOptNat tx_id)])]
  | .get key => .obj [("Get", .obj [("key", encodeBytes key)])]
  | .beginTx => .str "BeginTx"
  | .commit tx_id => .obj [("Commit", .obj [("tx_id", .num tx_id)])]
  | .backup => .str "Backup"

def encodeKvRequest (r : KvRequest) : Json :=
  .obj [("package_id", encodePackageId r.package_id), ("db", .str r.db),
        ("action", encodeKvAction r.action)]

def encodeKvError : KvError → Json
  | .noDb => .str "NoDb"
  | .dbAlreadyExists => .str "DbAlreadyExists"
  | .keyNotFound => .str "KeyNotFound"
  | .noTx => .str "NoTx"
  | .noCap e => .obj [("NoCap", .obj [("error", .str e)])]
  | .rocksDBError a e =>
      .obj [("RocksDBError", .obj [("action", .str a), ("error", .str e)])]
  | .inputError e => .obj [("InputError", .obj [("error", .str e)])]
  | .ioError e => .obj [("IOError", .obj [("error", .str e)])]

def encodeKvResponse : KvResponse → Json
  | .ok => .str "Ok"
  | .beginTx tx_id => .obj [("BeginTx", .obj [("tx_id", .num tx_id)])]
  | .get key => .obj [("Get", .obj [("key", encodeBytes key)])]
  | .err error => .obj [("Err", .obj [("error", encodeKvError error)])]

def encodeDefineResourceType : DefineResourceType → Json
  | .Namespace name => .obj [("Namespace", .obj [("name", .str name)])]
  | .Database name => .obj [("Database", .obj [("name", .str name)])]
  | .Table name => .obj [("Table", .obj [("name", .str name)])]

/-- A `(String, serde_json::Value)` tuple serializes as a two-element array. -/
def encodeParam (p : String × Json) : Json := .arr [.str p.1, p.2]

def encodeParams (ps : GraphDbRequestParams) : Json := .arr (ps.map encodeParam)

def encodeOptParams : Option GraphDbRequestParams → Json
  | none => .null
  | some ps => encodeParams ps

def encodeGraphDbAction : GraphDbAction → Json
  | .open => .str "Open"
  | .removeDb => .str "RemoveDb"
  | .define resource => .obj [("Define", .obj [("resource", encodeDefineResourceType resource)])]
  | .statement statement params =>
      .obj [("Statement", .obj [("statement", .str statement),
                                ("params", encodeOptParams params)])]
  | .read statement => .obj [("Read", .obj [("statement", .str statement)])]
  | .backup => .str "Backup"

def encodeGraphDbRequest (r : GraphDbRequest) : Json :=
  .obj [("package_id", encodePackageId r.package_id), ("db", .str r.db),
        ("action", encodeGraphDbAction r.action)]

def encodeGraphDbError : GraphDbError → Json
  | .noDb => .str "NoDb"
  | .keyNotFound => .str "KeyNotFound"
  | .noTx => .str "NoTx"
  | .noCap e => .obj [("NoCap", .obj [("error", .str e)])]
  | .surrealDBError a e =>
      .obj [("SurrealDBError", .obj [("action", .str a), ("error", .str e)])]
  | .inputError e => .obj [("InputError", .obj [("error", .str e)])]
  | .ioError e => .obj [("IOError", .obj [("error", .str e)])]

def encodeGraphDbResponse : GraphDbResponse → Json
  | .ok => .str "Ok"
  | .data => .str "Data"
  | .err error => .obj [("Err", .obj [("error", encodeGraphDbError error)])]

def encodePythonAction : PythonAction → Json
  | .runScript script func args =>
      .obj [("RunScript", .obj [("script", .str script), ("func", .str func),
                                ("args", encodeStrings args)])]

def encodePythonRequest (r : PythonRequest) : Json :=
  .obj [("package_id", encodePackageId r.package_id), ("action", encodePythonAction r.action)]

def encodePythonError : PythonError → Json
  | .noCap e => .obj [("NoCap", .obj [("error", .str e)])]
  | .inputError e => .obj [("InputError", .obj [("error", .str e)])]
  | .ioError e => .obj [("IOError", .obj [("error", .str e)])]

def encodePythonResponse : PythonResponse → Json
  | .result data => .obj [("Result", .obj [("data", encodeBytes data)])]
  | .err error => .obj [("Err", .obj [("error", encodePythonError error)])]

/- ===== Decoders (the derived `Deserialize` impls, on canonical encodings) ===== -/

def decodeByte : Json → Option Nat
  | .num n => some n
  | _ => none

def decodeByteList : List Json → Option (List Nat)
  | [] => some []
  | x :: xs => do
      let b ← decodeByte x
      let bs ← decodeByteList xs
      some (b :: bs)

def decodeBytes : Json → Option (List Nat)
  | .arr xs => decodeByteList xs
  | _ => none

def decodeOptNat : Json → Option (Option Nat)
  | .null => some none
  | .num n => some (some n)
  | _ => none

def decodeStr : Json → Option String
  | .str s => some s
  | _ => none

def decodeStrList : List Json → Option (List String)
  | [] => some []
  | x :: xs => do
      let s ← decodeStr x
      let ss ← decodeStrList xs
      some (s :: ss)

def decodeStrings : Json → Option (List String)
  | .arr xs => decodeStrList xs
  | _ => none

def decodePackageId : Json → Option PackageId
  | .str s => some ⟨s⟩
  | _ => none

def decodeKvAction : Json → Option KvAction
  | .str "New" => some .new
  | .str "BeginTx" => some .beginTx
  | .str "Backup" => some .backup
  | .obj [("Set", .obj [("key", k), ("tx_id", t)])] => do
      let key ← decodeBytes k
      let tx_id ← decodeOptNat t
      some (.set key tx_id)
  | .obj [("Delete", .obj [("key", k), ("tx_id", t)])] => do
      let key ← decodeBytes k
      let tx_id ← decodeOptNat t
      some (.delete key tx_id)
  | .obj [("Get", .obj [("key", k)])] => do
      let key ← decodeBytes k
      some (.get key)
  | .obj [("Commit", .obj [("tx_id", .num tx_id)])] => some (.commit tx_id)
  | _ => none

def decodeKvRequest : Json → Option KvRequest
  | .obj [("package_id", p), ("db", .str db), ("action", a)] => do
      let package_id ← decodePackageId p
      let action ← decodeKvAction a
      some ⟨package_id, db, action⟩
  | _ => none

def decodeKvError : Json → Option KvError
  | .str "NoDb" => some .noDb
  | .str "DbAlreadyExists" => some .dbAlreadyExists
  | .str "KeyNotFound" => some .keyNotFound
  | .str "NoTx" => some .noTx
  | .obj [("NoCap", .obj [("error", .str e)])] => some (.noCap e)
  | .obj [("RocksDBError", .obj [("action", .str a), ("error", .str e)])] =>
      some (.rocksDBError a e)
  | .obj [("InputError", .obj [("error", .str e)])] => some (.inputError e)
  | .obj [("IOError", .obj [("error", .str e)])] => some (.ioError e)
  | _ => none

def decodeKvResponse : Json → Option KvResponse
  | .str "Ok" => some .ok
  | .obj [("BeginTx", .obj [("tx_id", .num tx_id)])] => some (.beginTx tx_id)
  | .obj [("Get", .obj [("key", k)])] => do
      let key ← decodeBytes k
      some (.get key)
  | .obj [("Err", .obj [("error", e)])] => do
      let error ← decodeKvError e
      some (.err error)
  | _ => none

def decodeDefineResourceType : Json → Option DefineResourceType
  | .obj [("Namespace", .obj [("name", .str name)])] => some (.Namespace name)
  | .obj [("Database", .obj [("name", .str name)])] => some (.Database name)
  | .obj [("Table", .obj [("name", .str name)])] => some (.Table name)
  | _ => none

def decodeParam : Json → Option (String × Json)
  | .arr [.str k, v] => some (k, v)
  | _ => none

def decodeParamList : List Json → Option GraphDbRequestParams
  | [] => some []
  | x :: xs => do
      let p ← decodeParam x
      let ps ← decodeParamList xs
      some (p :: ps)

def decodeParams : Json → Option GraphDbRequestParams
  | .arr xs => decodeParamList xs
  | _ => none

def decodeOptParams : Json → Option (Option GraphDbRequestParams)
  | .null => some none
  | .arr xs => do
      let ps ← decodeParamList xs
      some (some ps)
  | _ => none

def decodeGraphDbAction : Json → Option GraphDbAction
  | .str "Open" => some .open
  | .str "RemoveDb" => some .removeDb
  | .str "Backup" => some .backup
  | .obj [("Define", .obj [("resource", r)])] => do
      let resource ← decodeDefineResourceType r
      some (.define resource)
  | .obj [("Statement", .obj [("statement", .str statement), ("params", p)])] => do
      let params ← decodeOptParams p
      some (.statement statement params)
  | .obj [("Read", .obj [("statement", .str statement)])] => some (.read statement)
  | _ => none

def decodeGraphDbRequest : Json → Option GraphDbRequest
  | .obj [("package_id", p), ("db", .str db), ("action", a)] => do
      let package_id ← decodePackageId p
      let action ← decodeGraphDbAction a
      some ⟨package_id, db, action⟩
  | _ => none

def decodeGraphDbError : Json → Option GraphDbError
  | .str "NoDb" => some .noDb
  | .str "KeyNotFound" => some .keyNotFound
  | .str "NoTx" => some .noTx
  | .obj [("NoCap", .obj [("error", .str e)])] => some (.noCap e)
  | .obj [("SurrealDBError", .obj [("action", .str a), ("error", .str e)])] =>
      some (.surrealDBError a e)
  | .obj [("InputError", .obj [("error", .str e)])] => some (.inputError e)
  | .obj [("IOError", .obj [("error", .str e)])] => some (.ioError e)
  | _ => none

def decodeGraphDbResponse : Json → Option GraphDbResponse
  | .str "Ok" => some .ok
  | .str "Data" => some .data
  | .obj [("Err", .obj [("error", e)])] => do
      let error ← decodeGraphDbError e
      some (.err error)
  | _ => none

def decodePythonAction : Json → Option PythonAction
  | .obj [("RunScript", .obj [("script", .str script), ("func", .str func), ("args", a)])] => do
      let args ← decodeStrings a
      some (.runScript script func args)
  | _ => none

def decodePythonRequest : Json → Option PythonRequest
  | .obj [("package_id", p), ("action", a)] => do
      let package_id ← decodePackageId p
      let action ← decodePythonAction a
      some ⟨package_id, action⟩
  | _ => none

def decodePythonError : Json → Option PythonError
  | .obj [("NoCap", .obj [("error", .str e)])] => some (.noCap e)
  | .obj [("InputError", .obj [("error", .str e)])] => some (.inputError e)
  | .obj [("IOError", .obj [("error", .str e)])] => some (.ioError e)
  | _ => none

def decodePythonResponse : Json → Option PythonResponse
  | .obj [("Result", .obj [("data", d)])] => do
      let data ← decodeBytes d
      some (.result data)
  | .obj [("Err", .obj [("error", e)])] => do
      let error ← decodePythonError e
      some (.err error)
  | _ => none

/-- The record shape `HashMap<String, serde_json::Value>`, value-level view:
an object's field list. -/
def decodeRecord : Json → Option (List (String × Json))
  | .obj fields => some fields
  | _ => none

def decodeRecordList : List Json → Option (List (List (String × Json)))
  | [] => some []
  | x :: xs => do
      let r ← decodeRecord x
      let rs ← decodeRecordList xs
      some (r :: rs)

/-- `Vec<HashMap<String, serde_json::Value>>`, the payload shape of
`GraphDb::read`. -/
def decodeRecords : Json → Option (List (List (String × Json)))
  | .arr xs => decodeRecordList xs
  | _ => none

/-- Canonical encoding of a record set, used to state which channel carries
query results. -/
def encodeRecords (vs : List (List (String × Json))) : Json :=
  .arr (vs.map .obj)

/- ===== Codec round-trip lemmas ===== -/

theorem decodeByteList_encode (bs : List Nat) :
    decodeByteList (bs.map Json.num) = some bs := by
  induction bs with
  | nil => rfl
  | cons b bs ih => simp [decodeByteList, decodeByte, ih]

theorem decodeBytes_encode (bs : List Nat) : decodeBytes (encodeBytes bs) = some bs := by
  simp [decodeBytes, encodeBytes, decodeByteList_encode]

theorem decodeOptNat_encode (t : Option Nat) : decodeOptNat (encodeOptNat t) = some t := by
  cases t <;> rfl

theorem decodeStrList_encode (ss : List String) :
    decodeStrList (ss.map Json.str) = some ss := by
  induction ss with
  | nil => rfl
  | cons s ss ih => simp [decodeStrList, decodeStr, ih]

theorem decodeStrings_encode (ss : List String) :
    decodeStrings (encodeStrings ss) = some ss := by
  simp [decodeStrings, encodeStrings, decodeStrList_encode]

theorem decodePackageId_encode (p : PackageId) :
    decodePackageId (encodePackageId p) = some p := rfl

theorem decodeKvAction_encode (a : KvAction) :
    decodeKvAction (encodeKvAction a) = some a := by
  cases a <;> simp [encodeKvAction, decodeKvAction, decodeBytes_encode, decodeOptNat_encode]

theorem decodeKvRequest_encode (r : KvRequest) :
    decodeKvRequest (encodeKvRequest r) = some r := by
  simp [encodeKvRequest, decodeKvRequest, encodePackageId, decodePackageId,
    decodeKvAction_encode]

theorem decodeKvError_encode (e : KvError) :
    decodeKvError (encodeKvError e) = some e := by
  cases e <;> rfl

theorem decodeKvResponse_encode (r : KvResponse) :
    decodeKvResponse (encodeKvResponse r) = some r := by
  cases r <;> simp [encodeKvResponse, decodeKvResponse, decodeBytes_encode,
    decodeKvError_encode]

theorem decodeDefineResourceType_encode (r : DefineResourceType) :
    decodeDefineResourceType (encodeDefineResourceType r) = some r := by
  cases r <;> rfl

theorem decodeParamList_encode (ps : GraphDbRequestParams) :
    decodeParamList (ps.map encodeParam) = some ps := by
  induction ps with
  | nil => rfl
  | cons p ps ih => simp [decodeParamList, encodeParam, decodeParam, ih]

theorem decodeOptParams_encode (ps : Option GraphDbRequestParams) :
    decodeOptParams (encodeOptParams ps) = some ps := by
  cases ps with
  | none => rfl
  | some ps => simp [encodeOptParams, encodeParams, decodeOptParams, decodeParamList_encode]

theorem decodeGraphDbAction_encode (a : GraphDbAction) :
    decodeGraphDbAction (encodeGraphDbAction a) = some a := by
  cases a <;> simp [encodeGraphDbAction, decodeGraphDbAction,
    decodeDefineResourceType_encode, decodeOptParams_encode]

theorem decodeGraphDbRequest_encode (r : GraphDbRequest) :
    decodeGraphDbRequest (encodeGraphDbRequest r) = some r := by
  simp [encodeGraphDbRequest, decodeGraphDbRequest, encodePackageId, decodePackageId,
    decodeGraphDbAction_encode]

theorem decodeGraphDbError_encode (e : GraphDbError) :
    decodeGraphDbError (encodeGraphDbError e) = some e := by
  cases e <;> rfl

theorem decodeGraphDbResponse_encode (r : GraphDbResponse) :
    decodeGraphDbResponse (encodeGraphDbResponse r) = some r := by
  cases r <;> simp [encodeGraphDbResponse, decodeGraphDbResponse, decodeGraphDbError_encode]

theorem decodePythonAction_encode (a : PythonAction) :
    decodePythonAction (encodePythonAction a) = some a := by
  cases a
  simp [encodePythonAction, decodePythonAction, decodeStrings_encode]

theorem decodePythonRequest_encode (r : PythonRequest) :
    decodePythonRequest (encodePythonRequest r) = some r := by
  simp [encodePythonRequest, decodePythonRequest, encodePackageId, decodePackageId,
    decodePythonAction_encode]

theorem decodePythonError_encode (e : PythonError) :
    decodePythonError (encodePythonError e) = some e := by
  cases e <;> rfl

theorem decodePythonResponse_encode (r : PythonResponse) :
    decodePythonResponse (encodePythonResponse r) = some r := by
  cases r <;> simp [encodePythonResponse, decodePythonResponse, decodeBytes_encode,
    decodePythonError_encode]

theorem decodeRecordList_encode (vs : List (List (String × Json))) :
    decodeRecordList (vs.map Json.obj) = some vs := by
  induction vs with
  | nil => rfl
  | cons v vs ih => simp [decodeRecordList, decodeRecord, ih]

theorem decodeRecords_encode (vs : List (List (String × Json))) :
    decodeRecords (encodeRecords vs) = some vs := by
  simp [decodeRecords, encodeRecords, decodeRecordList_encode]

/- ===== The caller-visible error channel ===== -/

/-- The content of the `anyhow::Error` a façade operation returns, keeping the
downcast-observable distinctions of the source: the typed service errors
(`KvError` / `GraphDbError` / `PythonError` converted via `?` or `.into()`),
a substrate `SendError` forwarded by `Err(e) => Err(e.into())`, a raw
`serde_json` deserialization error propagated by a bare `?`, and the anonymous
`anyhow::anyhow!(..)` messages.  (Format-argument tails of the source's
message strings are elided.)  `nonExhaustiveMatch` marks the arm missing from
`kv.rs`'s `match res` (it has no case for `Ok(Message::Request { .. })`); no
theorem below relies on it. -/
inductive AnyErr where
  | kv (e : KvError)
  | graphdb (e : GraphDbError)
  | python (e : PythonError)
  | send (e : SendError)
  | serde (context : String)
  | generic (msg : String)
  | nonExhaustiveMatch (context : String)
deriving Repr, DecidableEq

/-- Is the error one of the typed per-service errors (the ones the spec calls
"business errors" the caller can branch on)? -/
def isServiceError : AnyErr → Bool
  | .kv _ => true
  | .graphdb _ => true
  | .python _ => true
  | _ => false

/-- Is the error the typed `InputError` variant of one of the three
services? -/
def isTypedInputError : AnyErr → Bool
  | .kv (.inputError _) => true
  | .graphdb (.inputError _) => true
  | .python (.inputError _) => true
  | _ => false

def isErr {α : Type} : Except AnyErr α → Bool
  | .error _ => true
  | .ok _ => false

/- ===== Service addresses ===== -/

def kvAddress : Address := ("our", "kv", "sys", "uqbar")

def graphdbAddress : Address := ("our", "graphdb", "distro", "sys")

def pythonAddress : Address := ("our", "python", "distro", "sys")

/- ===== kv.rs façade operations =====

Each operation is split into the `BuiltRequest` it hands to the substrate and
the handling of the substrate's answer; the operation is parameterized by a
`gateway` function standing for `send_and_await_response` (for `get`, paired
with the ambient payload that `get_payload()` would observe afterwards). -/

namespace Kv

/-- `kv::new` as written refers to `package_id` and `value` that are not among
its parameters (the source file does not compile as-is); they are taken here
as parameters, which is the only reading that types. -/
def newRequest (package_id : PackageId) (db : String) (value : List Nat) : BuiltRequest :=
  { target := kvAddress
    body := encodeKvRequest ⟨package_id, db, .new⟩
    blob := some (.raw value)
    timeoutSeconds := 5 }

def new (package_id : PackageId) (db : String) (value : List Nat)
    (gateway : BuiltRequest → Except SendError Message) : Except AnyErr Unit :=
  match gateway (newRequest package_id db value) with
  | .ok (.response ipc) =>
      match decodeKvResponse ipc with
      | none => .error (.kv (.inputError "kv: gave unparsable response"))
      | some .ok => .ok ()
      | some _ => .error (.generic "kv: unexpected response")
  | .ok (.request _) => .error (.nonExhaustiveMatch "kv")
  | .error e => .error (.send e)

def getRequest (package_id : PackageId) (db : String) (key : List Nat) : BuiltRequest :=
  { target := kvAddress
    body := encodeKvRequest ⟨package_id, db, .get key⟩
    blob := none
    timeoutSeconds := 5 }

def get (package_id : PackageId) (db : String) (key : List Nat)
    (gateway : BuiltRequest → Except SendError Message × Option Payload) :
    Except AnyErr (List Nat) :=
  match gateway (getRequest package_id db key) with
  | (.ok (.response ipc), payload) =>
      match decodeKvResponse ipc with
      | none => .error (.kv (.inputError "kv: gave unparsable response"))
      | some (.get _) =>
          match payload with
          | some p => .ok p.bytes
          | none => .error (.generic "kv: no payload")
      | some _ => .error (.generic "Unexpected response")
  | (.ok (.request _), _) => .error (.nonExhaustiveMatch "kv")
  | (.error e, _) => .error (.send e)

def setRequest (package_id : PackageId) (db : String) (key : List Nat) (value : List Nat)
    (tx_id : Option Nat) : BuiltRequest :=
  { target := kvAddress
    body := encodeKvRequest ⟨package_id, db, .set key tx_id⟩
    blob := some (.raw value)
    timeoutSeconds := 5 }

def set (package_id : PackageId) (db : String) (key : List Nat) (value : List Nat)
    (tx_id : Option Nat) (gateway : BuiltRequest → Except SendError Message) :
    Except AnyErr Unit :=
  match gateway (setRequest package_id db key value tx_id) with
  | .ok (.response ipc) =>
      match decodeKvResponse ipc with
      | none => .error (.kv (.inputError "kv: gave unparsable response"))
      | some .ok => .ok ()
      | some _ => .error (.generic "kv: unexpected response")
  | .ok (.request _) => .error (.nonExhaustiveMatch "kv")
  | .error e => .error (.send e)

def deleteRequest (package_id : PackageId) (db : String) (key : List Nat)
    (tx_id : Option Nat) : BuiltRequest :=
  { target := kvAddress
    body := encodeKvRequest ⟨package_id, db, .delete key tx_id⟩
    blob := none
    timeoutSeconds := 5 }

def delete (package_id : PackageId) (db : String) (key : List Nat) (tx_id : Option Nat)
    (gateway : BuiltRequest → Except SendError Message) : Except AnyErr Unit :=
  match gateway (deleteRequest package_id db key tx_id) with
  | .ok (.response ipc) =>
      match decodeKvResponse ipc with
      | none => .error (.kv (.inputError "kv: gave unparsable response"))
      | some .ok => .ok ()
      | some _ => .error (.generic "kv: unexpected response")
  | .ok (.request _) => .error (.nonExhaustiveMatch "kv")
  | .error e => .error (.send e)

set_option linter.unusedVariables false in
/-- `kv::begin_tx` takes a `key` parameter it never uses; kept for fidelity. -/
def begin_txRequest (package_id : PackageId) (db : String) (key : List Nat) : BuiltRequest :=
  { target := kvAddress
    body := encodeKvRequest ⟨package_id, db, .beginTx⟩
    blob := none
    timeoutSeconds := 5 }

def begin_tx (package_id : PackageId) (db : String) (key : List Nat)
    (gateway : BuiltRequest → Except SendError Message) : Except AnyErr Nat :=
  match gateway (begin_txRequest package_id db key) with
  | .ok (.response ipc) =>
      match decodeKvResponse ipc with
      | none => .error (.kv (.inputError "kv: gave unparsable response"))
      | some (.beginTx tx_id) => .ok tx_id
      | some _ => .error (.generic "kv: unexpected response")
  | .ok (.request _) => .error (.nonExhaustiveMatch "kv")
  | .error e => .error (.send e)

def commit_txRequest (package_id : PackageId) (db : String) (tx_id : Nat) : BuiltRequest :=
  { target := kvAddress
    body := encodeKvRequest ⟨package_id, db, .commit tx_id⟩
    blob := none
    timeoutSeconds := 5 }

def commit_tx (package_id : PackageId) (db : String) (tx_id : Nat)
    (gateway : BuiltRequest → Except SendError Message) : Except AnyErr Unit :=
  match gateway (commit_txRequest package_id db tx_id) with
  | .ok (.response ipc) =>
      match decodeKvResponse ipc with
      | none => .error (.kv (.inputError "kv: gave unparsable response"))
      | some .ok => .ok ()
      | some _ => .error (.generic "kv: unexpected response")
  | .ok (.request _) => .error (.nonExhaustiveMatch "kv")
  | .error e => .error (.send e)

end Kv

/- ===== graphdb.rs façade ===== -/

/-- `GraphDb` helper struct for a db. -/
structure GraphDb where
  package_id : PackageId
  db : String

/-- The blob observed by `get_blob()` in `graphdb.rs`; its bytes always carry
a JSON document here, so they are represented at the value level. -/
structure GBlob where
  bytes : Json

namespace GraphDb

def readRequest (g : GraphDb) (statement : String) : BuiltRequest :=
  { target := graphdbAddress
    body := encodeGraphDbRequest ⟨g.package_id, g.db, .read statement⟩
    blob := none
    timeoutSeconds := 5 }

/-- `GraphDb::read`: only `Data` (followed by the blob) or `Err` are accepted;
a missing blob is a typed `InputError`, a body that fails `from_slice` is a
raw serde error propagated by `?`. -/
def read (g : GraphDb) (statement : String)
    (gateway : BuiltRequest → Except SendError Message × Option GBlob) :
    Except AnyErr (List (List (String × Json))) :=
  match gateway (readRequest g statement) with
  | (.ok (.response body), blob) =>
      match decodeGraphDbResponse body with
      | none => .error (.serde "graphdb")
      | some .data =>
          match blob with
          | none => .error (.graphdb (.inputError "graphdb: no blob"))
          | some b =>
              match decodeRecords b.bytes with
              | none => .error (.graphdb (.inputError "graphdb: gave unparsable response"))
              | some values => .ok values
      | some (.err error) => .error (.graphdb error)
      | some _ => .error (.generic "graphdb: unexpected response")
  | _ => .error (.generic "graphdb: unexpected message")

def statementRequest (g : GraphDb) (statement : String)
    (params : Option GraphDbRequestParams) : BuiltRequest :=
  { target := graphdbAddress
    body := encodeGraphDbRequest ⟨g.package_id, g.db, .statement statement params⟩
    blob := some (.json (encodeOptParams params))
    timeoutSeconds := 5 }

def statement (g : GraphDb) (stmt : String) (params : Option GraphDbRequestParams)
    (gateway : BuiltRequest → Except SendError Message) : Except AnyErr Unit :=
  match gateway (statementRequest g stmt params) with
  | .ok (.response body) =>
      match decodeGraphDbResponse body with
      | none => .error (.serde "graphdb")
      | some .ok => .ok ()
      | some (.err error) => .error (.graphdb error)
      | some _ => .error (.generic "graphdb: unexpected response")
  | _ => .error (.generic "graphdb: unexpected message")

def defineRequest (g : GraphDb) (resource : DefineResourceType) : BuiltRequest :=
  { target := graphdbAddress
    body := encodeGraphDbRequest ⟨g.package_id, g.db, .define resource⟩
    blob := none
    timeoutSeconds := 5 }

def define (g : GraphDb) (resource : DefineResourceType)
    (gateway : BuiltRequest → Except SendError Message) : Except AnyErr Unit :=
  match gateway (defineRequest g resource) with
  | .ok (.response body) =>
      match decodeGraphDbResponse body with
      | none => .error (.serde "graphdb")
      | some .ok => .ok ()
      | some (.err error) => .error (.graphdb error)
      | some _ => .error (.generic "graphdb: unexpected response")
  | _ => .error (.generic "graphdb: unexpected message")

end GraphDb

/-- `graphdb::open` (`open` is reserved in Lean, hence `openDb`). -/
def openDbRequest (package_id : PackageId) (db : String) : BuiltRequest :=
  { target := graphdbAddress
    body := encodeGraphDbRequest ⟨package_id, db, .open⟩
    blob := none
    timeoutSeconds := 5 }

def openDb (package_id : PackageId) (db : String)
    (gateway : BuiltRequest → Except SendError Message) : Except AnyErr GraphDb :=
  match gateway (openDbRequest package_id db) with
  | .ok (.response body) =>
      match decodeGraphDbResponse body with
      | none => .error (.serde "graphdb")
      | some .ok => .ok ⟨package_id, db⟩
      | some (.err error) => .error (.graphdb error)
      | some _ => .error (.generic "graphdb: unexpected response")
  | _ => .error (.generic "graphdb: unexpected message")

def remove_dbRequest (package_id : PackageId) (db : String) : BuiltRequest :=
  { target := graphdbAddress
    body := encodeGraphDbRequest ⟨package_id, db, .removeDb⟩
    blob := none
    timeoutSeconds := 5 }

def remove_db (package_id : PackageId) (db : String)
    (gateway : BuiltRequest → Except SendError Message) : Except AnyErr Unit :=
  match gateway (remove_dbRequest package_id db) with
  | .ok (.response body) =>
      match decodeGraphDbResponse body with
      | none => .error (.serde "graphdb")
      | some .ok => .ok ()
      | some (.err error) => .error (.graphdb error)
      | some _ => .error (.generic "graphdb: unexpected response")
  | _ => .error (.generic "graphdb: unexpected message")

/- ===== python.rs façade ===== -/

/-- Python runner helper. -/
structure Python where
  package_id : PackageId

namespace Python

def new (package_id : PackageId) : Python := ⟨package_id⟩

def run_scriptRequest (p : Python) (script : String) (func : String)
    (args : List String) : BuiltRequest :=
  { target := pythonAddress
    body := encodePythonRequest ⟨p.package_id, .runScript script func args⟩
    blob := none
    timeoutSeconds := 5 }

/-- `Python::run_script`: both response variants are handled; the script
output arrives as the `data` field of the primary body. -/
def run_script (p : Python) (script : String) (func : String) (args : List String)
    (gateway : BuiltRequest → Except SendError Message) : Except AnyErr (List Nat) :=
  match gateway (run_scriptRequest p script func args) with
  | .ok (.response body) =>
      match decodePythonResponse body with
      | none => .error (.serde "python")
      | some (.result data) => .ok data
      | some (.err error) => .error (.python error)
  | _ => .error (.generic "python: unexpected message")

end Python

/- ===== Claim theorems ===== -/

/-- C5: for every supported request value (every `KvRequest`, `GraphDbRequest`
and `PythonRequest`, over all action variants), deserializing the serialization
yields the original request unchanged.  The envelope codec acts on the request
alone — the blob is a separate field of `BuiltRequest` — so the round trip is
independent of blob presence. -/
theorem request_codec_roundtrip :
    (∀ r : KvRequest, decodeKvRequest (encodeKvRequest r) = some r) ∧
    (∀ r : GraphDbRequest, decodeGraphDbRequest (encodeGraphDbRequest r) = some r) ∧
    (∀ r : PythonRequest, decodePythonRequest (encodePythonRequest r) = some r) :=
  ⟨decodeKvRequest_encode, decodeGraphDbRequest_encode, decodePythonRequest_encode⟩

/-- C9: on a successful kv `get`, the bytes returned to the caller are exactly
the payload's bytes, and the key echoed inside the `Get` response variant has
no effect on the returned value. -/
theorem kv_get_returns_payload_ignores_echoed_key :
    ∀ (package_id : PackageId) (db : String) (key echoed other : List Nat) (p : Payload),
      Kv.get package_id db key
          (fun _ => (.ok (.response (encodeKvResponse (.get echoed))), some p)) = .ok p.bytes ∧
      Kv.get package_id db key
          (fun _ => (.ok (.response (encodeKvResponse (.get echoed))), some p)) =
        Kv.get package_id db key
          (fun _ => (.ok (.response (encodeKvResponse (.get other))), some p)) := by
  intro package_id db key echoed other p
  constructor <;> simp [Kv.get, decodeKvResponse_encode]

/-- C10: `GraphDb::statement` serializes the bound parameters twice — once
inside the primary body (inside the `Statement` action) and once as the blob —
and the blob is attached even when `params` is `none`, then carrying the
serialization of `null`. -/
theorem graphdb_statement_params_twice :
    ∀ (g : GraphDb) (stmt : String) (params : Option GraphDbRequestParams),
      (GraphDb.statementRequest g stmt params).body
          = encodeGraphDbRequest ⟨g.package_id, g.db, .statement stmt params⟩ ∧
      (GraphDb.statementRequest g stmt params).blob = some (.json (encodeOptParams params)) ∧
      (GraphDb.statementRequest g stmt none).blob = some (.json Json.null) :=
  fun _ _ _ => ⟨rfl, rfl, rfl⟩

/-- C8: every façade operation of every service issues its call with the fixed
timeout of 5 time-units, and a failed send or timeout (a `SendError` outcome
of the gateway) surfaces as an error that is never one of the typed
business-error variants. -/
theorem fixed_timeout_and_transport_error_distinct :
    (∀ package_id db value, (Kv.newRequest package_id db value).timeoutSeconds = 5) ∧
    (∀ package_id db key, (Kv.getRequest package_id db key).timeoutSeconds = 5) ∧
    (∀ package_id db key value t, (Kv.setRequest package_id db key value t).timeoutSeconds = 5) ∧
    (∀ package_id db key t, (Kv.deleteRequest package_id db key t).timeoutSeconds = 5) ∧
    (∀ package_id db key, (Kv.begin_txRequest package_id db key).timeoutSeconds = 5) ∧
    (∀ package_id db t, (Kv.commit_txRequest package_id db t).timeoutSeconds = 5) ∧
    (∀ g s, (GraphDb.readRequest g s).timeoutSeconds = 5) ∧
    (∀ g s params, (GraphDb.statementRequest g s params).timeoutSeconds = 5) ∧
    (∀ g r, (GraphDb.defineRequest g r).timeoutSeconds = 5) ∧
    (∀ package_id db, (openDbRequest package_id db).timeoutSeconds = 5) ∧
    (∀ package_id db, (remove_dbRequest package_id db).timeoutSeconds = 5) ∧
    (∀ p s f args, (Python.run_scriptRequest p s f args).timeoutSeconds = 5) ∧
    (∀ e package_id db key payload,
      Kv.get package_id db key (fun _ => (.error e, payload)) = .error (.send e)) ∧
    (∀ e package_id db key value t,
      Kv.set package_id db key value t (fun _ => .error e) = .error (.send e)) ∧
    (∀ e g s blob,
      GraphDb.read g s (fun _ => (.error e, blob))
        = .error (.generic "graphdb: unexpected message")) ∧
    (∀ e g s params,
      GraphDb.statement g s params (fun _ => .error e)
        = .error (.generic "graphdb: unexpected message")) ∧
    (∀ e p s f args,
      Python.run_script p s f args (fun _ => .error e)
        = .error (.generic "python: unexpected message")) ∧
    (∀ e, isServiceError (AnyErr.send e) = false) ∧
    (∀ m, isServiceError (AnyErr.generic m) = false) :=
  ⟨fun _ _ _ => rfl, fun _ _ _ => rfl, fun _ _ _ _ _ => rfl, fun _ _ _ _ => rfl,
   fun _ _ _ => rfl, fun _ _ _ => rfl, fun _ _ => rfl, fun _ _ _ => rfl,
   fun _ _ => rfl, fun _ _ => rfl, fun _ _ => rfl, fun _ _ _ _ => rfl,
   fun _ _ _ _ _ => rfl, fun _ _ _ _ _ _ => rfl, fun _ _ _ _ => rfl,
   fun _ _ _ _ => rfl, fun _ _ _ _ _ => rfl, fun _ => rfl, fun _ => rfl⟩

/-- C2: a decoded response whose tag is not among the variants expected for
the call site (a kv `Get` expects only `Get` or `Err`; a kv `Set` only `Ok`
or `Err`; a graphdb `read` only `Data` or `Err`; a graphdb `statement` only
`Ok` or `Err`; `run_script` only a `Response` message) yields an error, never
a default or empty success value. -/
theorem unexpected_variant_yields_error :
    (∀ package_id db key payload,
      isErr (Kv.get package_id db key
        (fun _ => (.ok (.response (encodeKvResponse .ok)), payload))) = true) ∧
    (∀ package_id db key payload t,
      isErr (Kv.get package_id db key
        (fun _ => (.ok (.response (encodeKvResponse (.beginTx t))), payload))) = true) ∧
    (∀ package_id db key value t k2,
      isErr (Kv.set package_id db key value t
        (fun _ => .ok (.response (encodeKvResponse (.get k2))))) = true) ∧
    (∀ package_id db key value t t2,
      isErr (Kv.set package_id db key value t
        (fun _ => .ok (.response (encodeKvResponse (.beginTx t2))))) = true) ∧
    (∀ g s blob,
      isErr (GraphDb.read g s
        (fun _ => (.ok (.response (encodeGraphDbResponse .ok)), blob))) = true) ∧
    (∀ g s params,
      isErr (GraphDb.statement g s params
        (fun _ => .ok (.response (encodeGraphDbResponse .data)))) = true) ∧
    (∀ p s f args b,
      isErr (Python.run_script p s f args (fun _ => .ok (.request b))) = true) := by
  refine ⟨?_, ?_, ?_, ?_, ?_, ?_, ?_⟩ <;> intros <;>
    simp [Kv.get, Kv.set, GraphDb.read, GraphDb.statement, Python.run_script,
      decodeKvResponse_encode, decodeGraphDbResponse_encode, isErr]

/-- C1 counterexample: kv `get`, handed a decoded `Err { KeyNotFound }`
response, does not return the typed `KeyNotFound` error kind — it collapses
the `Err` variant into the anonymous failure "Unexpected response", on which
no caller can branch. -/
theorem kv_get_err_collapsed_counterexample :
    Kv.get ⟨"pkg"⟩ "db" [0]
        (fun _ => (.ok (.response (encodeKvResponse (.err .keyNotFound))), none))
      = .error (.generic "Unexpected response") ∧
    isServiceError (AnyErr.generic "Unexpected response") = false :=
  ⟨rfl, rfl⟩

/-- C1 amended: the graphdb and python operations map a decoded `Err` variant
one-to-one into the caller's typed error, but the kv operations collapse every
`Err` response into a generic "unexpected response" failure. -/
theorem err_variant_mapping :
    (∀ g s blob (e : GraphDbError),
      GraphDb.read g s (fun _ => (.ok (.response (encodeGraphDbResponse (.err e))), blob))
        = .error (.graphdb e)) ∧
    (∀ g s params (e : GraphDbError),
      GraphDb.statement g s params (fun _ => .ok (.response (encodeGraphDbResponse (.err e))))
        = .error (.graphdb e)) ∧
    (∀ g r (e : GraphDbError),
      GraphDb.define g r (fun _ => .ok (.response (encodeGraphDbResponse (.err e))))
        = .error (.graphdb e)) ∧
    (∀ package_id db (e : GraphDbError),
      openDb package_id db (fun _ => .ok (.response (encodeGraphDbResponse (.err e))))
        = .error (.graphdb e)) ∧
    (∀ package_id db (e : GraphDbError),
      remove_db package_id db (fun _ => .ok (.response (encodeGraphDbResponse (.err e))))
        = .error (.graphdb e)) ∧
    (∀ p s f args (e : PythonError),
      Python.run_script p s f args (fun _ => .ok (.response (encodePythonResponse (.err e))))
        = .error (.python e)) ∧
    (∀ package_id db key payload (e : KvError),
      Kv.get package_id db key
          (fun _ => (.ok (.response (encodeKvResponse (.err e))), payload))
        = .error (.generic "Unexpected response")) ∧
    (∀ package_id db key value t (e : KvError),
      Kv.set package_id db key value t
          (fun _ => .ok (.response (encodeKvResponse (.err e))))
        = .error (.generic "kv: unexpected response")) := by
  refine ⟨?_, ?_, ?_, ?_, ?_, ?_, ?_, ?_⟩ <;> intros <;>
    simp [GraphDb.read, GraphDb.statement, GraphDb.define, openDb, remove_db,
      Python.run_script, Kv.get, Kv.set, decodeGraphDbResponse_encode,
      decodePythonResponse_encode, decodeKvResponse_encode]

/-- C3 counterexample: kv `get`, handed a `Get` response that signals an
attached payload while none is present, returns the anonymous failure
"kv: no payload" — not an InputError-kind typed error. -/
theorem kv_get_missing_payload_counterexample :
    Kv.get ⟨"pkg"⟩ "db" [1]
        (fun _ => (.ok (.response (encodeKvResponse (.get [1]))), none))
      = .error (.generic "kv: no payload") ∧
    isTypedInputError (AnyErr.generic "kv: no payload") = false :=
  ⟨rfl, rfl⟩

/-- C3 amended: when a success response signals an attached blob, the
operation retrieves the blob before returning (the returned value is decoded
from it); when the blob is absent, `GraphDb::read` returns the typed
`InputError` "graphdb: no blob", but kv `get` returns a generic
"kv: no payload" failure instead of an InputError-kind typed error. -/
theorem blob_retrieval_on_signaled_response :
    (∀ g s (b : GBlob),
      GraphDb.read g s (fun _ => (.ok (.response (encodeGraphDbResponse .data)), some b))
        = match decodeRecords b.bytes with
          | none => .error (.graphdb (.inputError "graphdb: gave unparsable response"))
          | some values => .ok values) ∧
    (∀ g s,
      GraphDb.read g s (fun _ => (.ok (.response (encodeGraphDbResponse .data)), none))
        = .error (.graphdb (.inputError "graphdb: no blob"))) ∧
    (∀ package_id db key (p : Payload),
      Kv.get package_id db key
          (fun _ => (.ok (.response (encodeKvResponse (.get key))), some p)) = .ok p.bytes) ∧
    (∀ package_id db key,
      Kv.get package_id db key
          (fun _ => (.ok (.response (encodeKvResponse (.get key))), none))
        = .error (.generic "kv: no payload")) := by
  refine ⟨?_, ?_, ?_, ?_⟩ <;> intros <;>
    simp [GraphDb.read, Kv.get, decodeGraphDbResponse_encode, decodeKvResponse_encode]

/-- C4 counterexample: kv `set`, handed a decoded `Err { NoCap }` capability
rejection, does not return the `NoCap` error variant — it collapses the
rejection (reason included) into the anonymous failure
"kv: unexpected response". -/
theorem kv_set_nocap_collapsed_counterexample :
    Kv.set ⟨"pkg"⟩ "db" [2] [3] none
        (fun _ => .ok (.response (encodeKvResponse (.err (.noCap "write denied")))))
      = .error (.generic "kv: unexpected response") ∧
    isServiceError (AnyErr.generic "kv: unexpected response") = false :=
  ⟨rfl, rfl⟩

/-- C4 amended: a capability rejection reported by the graphdb or python
service is returned as the typed `NoCap` variant with the rejection reason in
its string field, but the kv operations collapse the rejection into a generic
"kv: unexpected response" failure. -/
theorem nocap_rejection_mapping :
    (∀ g s params reason,
      GraphDb.statement g s params
          (fun _ => .ok (.response (encodeGraphDbResponse (.err (.noCap reason)))))
        = .error (.graphdb (.noCap reason))) ∧
    (∀ g s blob reason,
      GraphDb.read g s
          (fun _ => (.ok (.response (encodeGraphDbResponse (.err (.noCap reason)))), blob))
        = .error (.graphdb (.noCap reason))) ∧
    (∀ p s f args reason,
      Python.run_script p s f args
          (fun _ => .ok (.response (encodePythonResponse (.err (.noCap reason)))))
        = .error (.python (.noCap reason))) ∧
    (∀ package_id db key value t reason,
      Kv.set package_id db key value t
          (fun _ => .ok (.response (encodeKvResponse (.err (.noCap reason)))))
        = .error (.generic "kv: unexpected response")) := by
  refine ⟨?_, ?_, ?_, ?_⟩ <;> intros <;>
    simp [GraphDb.statement, GraphDb.read, Python.run_script, Kv.set,
      decodeGraphDbResponse_encode, decodePythonResponse_encode, decodeKvResponse_encode]

/-- C6 counterexample: a complete, successful `run_script` exchange carries
the script output `[1, 2, 3]` inside the primary response body (the `data`
field of the `Result` variant), with no blob attached to the request and no
blob channel consulted for the response. -/
theorem python_output_in_primary_body_counterexample :
    Python.run_script ⟨⟨"pkg"⟩⟩ "script.py" "main" []
        (fun _ => .ok (.response (encodePythonResponse (.result [1, 2, 3]))))
      = .ok [1, 2, 3] ∧
    (Python.run_scriptRequest ⟨⟨"pkg"⟩⟩ "script.py" "main" []).blob = none :=
  ⟨rfl, rfl⟩

/-- C6 amended: the value stored by kv `set`, the record sets returned by
graphdb `read`, and the bound parameters of `statement` travel in the blob
side-channel, and action tags, keys and scalar ids travel in the primary
body — but python script output is returned in the primary response body, not
in the blob channel. -/
theorem payload_channel_assignment :
    (∀ package_id db key value t,
      (Kv.setRequest package_id db key value t).blob = some (.raw value) ∧
      (Kv.setRequest package_id db key value t).body
          = encodeKvRequest ⟨package_id, db, .set key t⟩) ∧
    (∀ g s params,
      (GraphDb.statementRequest g s params).blob = some (.json (encodeOptParams params))) ∧
    (∀ g s values,
      GraphDb.read g s
          (fun _ => (.ok (.response (encodeGraphDbResponse .data)), some ⟨encodeRecords values⟩))
        = .ok values) ∧
    (∀ p s f args d,
      Python.run_script p s f args
          (fun _ => .ok (.response (encodePythonResponse (.result d)))) = .ok d ∧
      (Python.run_scriptRequest p s f args).blob = none) ∧
    (∀ package_id db key,
      (Kv.getRequest package_id db key).body = encodeKvRequest ⟨package_id, db, .get key⟩ ∧
      (Kv.getRequest package_id db key).blob = none) := by
  refine ⟨fun _ _ _ _ _ => ⟨rfl, rfl⟩, fun _ _ _ => rfl, ?_, ?_, fun _ _ _ => ⟨rfl, rfl⟩⟩
  · intros
    simp [GraphDb.read, decodeGraphDbResponse_encode, decodeRecords_encode]
  · intro p s f args d
    exact ⟨by simp [Python.run_script, decodePythonResponse_encode], rfl⟩

/-- C7 counterexample: `GraphDb::read`, handed a primary body that fails to
parse as a `GraphDbResponse`, propagates the raw deserialization error (the
bare `?` on `serde_json::from_slice`) — not an InputError-kind typed error. -/
theorem graphdb_parse_failure_counterexample :
    GraphDb.read ⟨⟨"pkg"⟩, "db"⟩ "SELECT note FROM notes"
        (fun _ => (.ok (.response Json.null), none))
      = .error (.serde "graphdb") ∧
    isTypedInputError (AnyErr.serde "graphdb") = false :=
  ⟨rfl, rfl⟩

/-- C7 amended: a primary body that fails to parse into the expected response
type is always reported as an error, never a silently defaulted value; kv
wraps it as the typed `InputError` "kv: gave unparsable response", while
graphdb and python propagate the raw deserialization error unwrapped. -/
theorem parse_failure_reporting (body : Json)
    (hkv : decodeKvResponse body = none)
    (hgraph : decodeGraphDbResponse body = none)
    (hpython : decodePythonResponse body = none) :
    (∀ package_id db key payload,
      Kv.get package_id db key (fun _ => (.ok (.response body), payload))
        = .error (.kv (.inputError "kv: gave unparsable response"))) ∧
    (∀ g s blob,
      GraphDb.read g s (fun _ => (.ok (.response body), blob)) = .error (.serde "graphdb")) ∧
    (∀ p s f args,
      Python.run_script p s f args (fun _ => .ok (.response body))
        = .error (.serde "python")) := by
  refine ⟨?_, ?_, ?_⟩ <;> intros <;>
    simp [Kv.get, GraphDb.read, Python.run_script, hkv, hgraph, hpython]

/-- C7 witness: the amended theorem applied at the concrete unparsable body
`null`. -/
theorem parse_failure_reporting_witness :
    Kv.get ⟨"wpkg"⟩ "wdb" [] (fun _ => (.ok (.response Json.null), none))
      = .error (.kv (.inputError "kv: gave unparsable response")) :=
  (parse_failure_reporting Json.null rfl rfl rfl).1 ⟨"wpkg"⟩ "wdb" [] none
